import Mathlib

/-!
Verification of the S3D video-classification architecture
(src/torchvision/models/video/s3d.py) against its specification.

The development embeds the shape semantics of the network (tensor shapes as
5-tuples of natural numbers, the standard convolution/pooling output-size
arithmetic), the construction-time structure of the layers (which
convolution-normalization-activation units are built, with which parameters
and which normalization factory), and the Python call-binding behaviour of
the two constructor call sites whose argument lists do not match their
callees' signatures.
-/

namespace S3DModel

/-- Shape of a 5-dimensional video tensor, with the semantic axes
(batch, channel, time, height, width) used throughout s3d.py. -/
structure Shape5 where
  n : Nat
  c : Nat
  t : Nat
  h : Nat
  w : Nat
deriving DecidableEq, Repr

/-- Output extent of one axis under Conv3d, MaxPool3d or AvgPool3d arithmetic
with dilation 1 and ceil_mode false: floor((n + 2p - k) / s) + 1.  The extent
is defined only when the padded input is at least as large as the kernel;
otherwise the layer fails on this input (spec section 7, shape errors). -/
def outDim (n k s p : Nat) : Option Nat :=
  if n + 2 * p < k then none else some ((n + 2 * p - k) / s + 1)

/-- Shape semantics of Conv3d(cin, cout, kernel (kt,kh,kw), stride (qt,qh,qw),
padding (pt,ph,pw)): the incoming channel count must equal cin, and each
spatiotemporal axis follows the standard convolution output-size formula. -/
def conv3dShape (cin cout kt kh kw qt qh qw pt ph pw : Nat) (x : Shape5) : Option Shape5 :=
  if x.c = cin then
    (outDim x.t kt qt pt).bind fun t =>
      (outDim x.h kh qh ph).bind fun h =>
        (outDim x.w kw qw pw).map fun w => ⟨x.n, cout, t, h, w⟩
  else none

/-- Shape semantics of MaxPool3d / AvgPool3d with kernel (kt,kh,kw), stride
(qt,qh,qw), padding (pt,ph,pw): channels unchanged, the same output-size
formula on every spatiotemporal axis. -/
def poolShape (kt kh kw qt qh qw pt ph pw : Nat) (x : Shape5) : Option Shape5 :=
  (outDim x.t kt qt pt).bind fun t =>
    (outDim x.h kh qh ph).bind fun h =>
      (outDim x.w kw qw pw).map fun w => ⟨x.n, x.c, t, h, w⟩

/-- A normalization factory value as passed between the constructors in
s3d.py: either a batch-normalization factory with explicit epsilon and
momentum (a functools.partial over nn.BatchNorm3d in the source), or an
arbitrary caller-supplied factory identified by a tag. -/
inductive NormSpec where
  | batchNorm (eps momentum : ℚ)
  | custom (id : Nat)
deriving DecidableEq, Repr

/-- The default normalization factory built on lines 62 and 116 of s3d.py:
batch normalization with eps = 0.001 and momentum = 0.001. -/
def defaultNorm : NormSpec := NormSpec.batchNorm (1/1000) (1/1000)

/-- The fixed normalization factory of the two convolutions inside
TemporalSeparableConv (s3d.py lines 30 and 39): batch normalization with
eps = 1e-3 and momentum = 1e-3, independent of any caller-supplied factory. -/
def tscNorm : NormSpec := NormSpec.batchNorm (1/1000) (1/1000)

/-- Construction parameters of one Conv3dNormActivation unit: channel counts,
kernel, stride, padding, bias flag, and the normalization factory it was
given. -/
structure ConvSpec where
  cin : Nat
  cout : Nat
  kernel : Nat × Nat × Nat
  stride : Nat × Nat × Nat
  padding : Nat × Nat × Nat
  bias : Bool
  norm : NormSpec
deriving DecidableEq, Repr

/-- Modelled from the spec: Conv3dNormActivation itself is imported from
torchvision.ops.misc and is not under src/.  Per the spec, invoked with
kernel_size=1 and stride=1 it is a point convolution, which changes the
channel count without mixing spatial or temporal neighbours, so the padding
resolves to 0, and the convolution carries no separate bias because a
normalization layer follows it. -/
def cnaPoint (cin cout : Nat) (norm : NormSpec) : ConvSpec :=
  ⟨cin, cout, (1, 1, 1), (1, 1, 1), (0, 0, 0), false, norm⟩

/-- TemporalSeparableConv(in_planes, out_planes, kernel_size, stride, padding)
(s3d.py lines 20-41): a spatial Conv3dNormActivation with kernel (1,k,k),
stride (1,s,s), padding (0,p,p) and no bias, followed by a temporal one with
kernel (k,1,1), stride (s,1,1), padding (p,0,0) and no bias, both carrying
the fixed normalization factory. -/
def temporalSeparableConv (cin cout k s p : Nat) : List ConvSpec :=
  [⟨cin, cout, (1, k, k), (1, s, s), (0, p, p), false, tscNorm⟩,
   ⟨cout, cout, (k, 1, 1), (s, 1, 1), (p, 0, 0), false, tscNorm⟩]

/-- Shape semantics of one Conv3dNormActivation unit: normalization and
activation preserve shape, so only the convolution acts on the shape. -/
def convSpecShape (u : ConvSpec) : Shape5 → Option Shape5 :=
  conv3dShape u.cin u.cout u.kernel.1 u.kernel.2.1 u.kernel.2.2
    u.stride.1 u.stride.2.1 u.stride.2.2 u.padding.1 u.padding.2.1 u.padding.2.2

/-- Shape semantics of a list of units applied in order. -/
def runConvs (l : List ConvSpec) (x : Shape5) : Option Shape5 :=
  l.foldl (fun a u => a.bind (convSpecShape u)) (some x)

/-- Shape semantics of TemporalSeparableConv: its two units in order. -/
def tscShape (cin cout k s p : Nat) (x : Shape5) : Option Shape5 :=
  runConvs (temporalSeparableConv cin cout k s p) x

/-- Shape semantics of torch.cat((a, b, c, d), 1) (s3d.py line 91): all
non-channel extents must agree, and the channel counts add in branch order
0, 1, 2, 3. -/
def cat4Shape (a b c d : Shape5) : Option Shape5 :=
  if a.n = b.n ∧ a.t = b.t ∧ a.h = b.h ∧ a.w = b.w ∧
     a.n = c.n ∧ a.t = c.t ∧ a.h = c.h ∧ a.w = c.w ∧
     a.n = d.n ∧ a.t = d.t ∧ a.h = d.h ∧ a.w = d.w then
    some ⟨a.n, a.c + b.c + c.c + d.c, a.t, a.h, a.w⟩
  else none

/-- Shape semantics of SepInceptionBlock3D.forward (s3d.py lines 58-93) for
the block whose channel configuration is (ip, b0, b1m, b1o, b2m, b2o, b3),
the seven channel counts appearing at the construction calls of S3D.features:
branch0 is a point convolution ip to b0; branch1 a point convolution ip to
b1m then a separable convolution b1m to b1o with kernel 3, stride 1,
padding 1; branch2 the same pattern with b2m, b2o; branch3 a max-pool with
kernel 3, stride 1, padding 1 then a point convolution ip to b3; the four
branch outputs are concatenated on the channel axis in order. -/
def sepInceptionShape (ip b0 b1m b1o b2m b2o b3 : Nat) (x : Shape5) : Option Shape5 :=
  (convSpecShape (cnaPoint ip b0 defaultNorm) x).bind fun x0 =>
    ((convSpecShape (cnaPoint ip b1m defaultNorm) x).bind (tscShape b1m b1o 3 1 1)).bind fun x1 =>
      ((convSpecShape (cnaPoint ip b2m defaultNorm) x).bind (tscShape b2m b2o 3 1 1)).bind fun x2 =>
        ((poolShape 3 3 3 1 1 1 1 1 1 x).bind (convSpecShape (cnaPoint ip b3 defaultNorm))).bind fun x3 =>
          cat4Shape x0 x1 x2 x3

/-- One stage of the S3D.features pipeline (s3d.py lines 118-137). -/
inductive Stage where
  | tsc (cin cout k s p : Nat)
  | maxPool (k s p : Nat × Nat × Nat)
  | pointConv (cin cout : Nat)
  | inception (cin b0 b1m b1o b2m b2o b3 : Nat)
deriving DecidableEq, Repr

/-- Shape semantics of one stage. -/
def stageShape : Stage → Shape5 → Option Shape5
  | Stage.tsc cin cout k s p => tscShape cin cout k s p
  | Stage.maxPool k s p =>
      poolShape k.1 k.2.1 k.2.2 s.1 s.2.1 s.2.2 p.1 p.2.1 p.2.2
  | Stage.pointConv cin cout => convSpecShape (cnaPoint cin cout defaultNorm)
  | Stage.inception cin b0 b1m b1o b2m b2o b3 => sepInceptionShape cin b0 b1m b1o b2m b2o b3

/-- The ordered stage list of S3D.features, transcribed from s3d.py
lines 118-137. -/
def s3dFeatures : List Stage :=
  [Stage.tsc 3 64 7 2 3,
   Stage.maxPool (1, 3, 3) (1, 2, 2) (0, 1, 1),
   Stage.pointConv 64 64,
   Stage.tsc 64 192 3 1 1,
   Stage.maxPool (1, 3, 3) (1, 2, 2) (0, 1, 1),
   Stage.inception 192 64 96 128 16 32 32,
   Stage.inception 256 128 128 192 32 96 64,
   Stage.maxPool (3, 3, 3) (2, 2, 2) (1, 1, 1),
   Stage.inception 480 192 96 208 16 48 64,
   Stage.inception 512 160 112 224 24 64 64,
   Stage.inception 512 128 128 256 24 64 64,
   Stage.inception 512 112 144 288 32 64 64,
   Stage.inception 528 256 160 320 32 128 128,
   Stage.maxPool (2, 2, 2) (2, 2, 2) (0, 0, 0),
   Stage.inception 832 256 160 320 32 128 128,
   Stage.inception 832 384 192 384 48 128 128]

/-- Shape semantics of a stage list applied in order. -/
def runStages (l : List Stage) (x : Shape5) : Option Shape5 :=
  l.foldl (fun a st => a.bind (stageShape st)) (some x)

/-- Shape semantics of S3D.features. -/
def featuresShape (x : Shape5) : Option Shape5 := runStages s3dFeatures x

/-- Shape semantics of S3D.avgpool = AvgPool3d(kernel_size=(2,7,7), stride=1),
no padding (s3d.py line 138). -/
def avgPoolShape : Shape5 → Option Shape5 := poolShape 2 7 7 1 1 1 0 0 0

/-- Dropout preserves shape (s3d.py line 140). -/
def dropoutShape (x : Shape5) : Option Shape5 := some x

/-- Shape semantics of S3D.classifier = Sequential(Dropout(p),
Conv3d(1024, num_classes, kernel_size=1, stride=1, bias=True))
(s3d.py lines 139-142). -/
def classifierShape (numClasses : Nat) (x : Shape5) : Option Shape5 :=
  (dropoutShape x).bind (conv3dShape 1024 numClasses 1 1 1 1 1 1 0 0 0)

/-- Shape effect of torch.mean(x, dim=(2, 3, 4)) (s3d.py line 148): the time,
height and width axes are averaged away, leaving (batch, channel). -/
def meanTHWShape (x : Shape5) : Nat × Nat := (x.n, x.c)

/-- Shape semantics of the classification head in the application order of
S3D.forward (s3d.py lines 146-148): avgpool, then classifier, then the mean
reduction. -/
def s3dHeadShape (numClasses : Nat) (x : Shape5) : Option (Nat × Nat) :=
  ((avgPoolShape x).bind (classifierShape numClasses)).map meanTHWShape

/-- Shape semantics of S3D.forward (s3d.py lines 144-149). -/
def s3dForwardShape (numClasses : Nat) (x : Shape5) : Option (Nat × Nat) :=
  (featuresShape x).bind (s3dHeadShape numClasses)

/-- Default dropout probability of the S3D constructor (s3d.py line 112):
0.2. -/
def s3dDefaultDropout : ℚ := 1/5

/-- Default class count of the S3D constructor (s3d.py line 111). -/
def s3dDefaultNumClasses : Nat := 400

/-- One operation of the classification head with its construction
parameters (kernel, stride, padding as (t,h,w) triples). -/
inductive HeadOp where
  | avgPool (k s p : Nat × Nat × Nat)
  | dropout (p : ℚ)
  | conv (cin cout kernel : Nat) (bias : Bool)
  | meanTHW
deriving DecidableEq, Repr

/-- The ordered operation list of the classification head, transcribed from
s3d.py lines 138-142 (construction of avgpool and classifier) and
lines 146-148 (application order in forward): AvgPool3d((2,7,7), stride 1,
no padding), Dropout(p), Conv3d(1024, num_classes, kernel 1, bias True),
then the mean over the time, height and width axes. -/
def s3dHead (numClasses : Nat) (dropout : ℚ) : List HeadOp :=
  [HeadOp.avgPool (2, 7, 7) (1, 1, 1) (0, 0, 0),
   HeadOp.dropout dropout,
   HeadOp.conv 1024 numClasses 1 true,
   HeadOp.meanTHW]

/-- A Conv3dNormActivation unit of the feature extractor, together with a
flag recording whether it is one of the two normalization-carrying units
inside a TemporalSeparableConv. -/
structure TaggedUnit where
  insideSeparable : Bool
  unit : ConvSpec
deriving DecidableEq, Repr

/-- Tag a list of units with the given separable-membership flag. -/
def tagUnits (b : Bool) (l : List ConvSpec) : List TaggedUnit :=
  l.map fun u => ⟨b, u⟩

/-- The Conv3dNormActivation units created by SepInceptionBlock3D.__init__
(s3d.py lines 58-84) in construction order, given the norm_layer argument the
block was called with; a missing argument falls back to the default factory
(lines 61-62).  The separable convolutions inside branch1 and branch2 carry
their own two fixed-normalization units each. -/
def sepInceptionUnits (ip b0 b1m b1o b2m b2o b3 : Nat) (norm_layer : Option NormSpec) :
    List TaggedUnit :=
  let nl := norm_layer.getD defaultNorm
  tagUnits false [cnaPoint ip b0 nl] ++
    (tagUnits false [cnaPoint ip b1m nl] ++ tagUnits true (temporalSeparableConv b1m b1o 3 1 1)) ++
    (tagUnits false [cnaPoint ip b2m nl] ++ tagUnits true (temporalSeparableConv b2m b2o 3 1 1)) ++
    tagUnits false [cnaPoint ip b3 nl]

/-- All Conv3dNormActivation units of S3D.features in construction order,
given the norm_layer argument of the S3D constructor (s3d.py lines 108-137).
The stem unit on lines 121-123 receives that argument; the nine
SepInceptionBlock3D construction calls on lines 126-136 pass no norm_layer
argument at all, so every block receives none and falls back to its own
default factory. -/
def s3dFeatureUnits (norm_layer : Option NormSpec) : List TaggedUnit :=
  let nl := norm_layer.getD defaultNorm
  tagUnits true (temporalSeparableConv 3 64 7 2 3) ++
    tagUnits false [cnaPoint 64 64 nl] ++
    tagUnits true (temporalSeparableConv 64 192 3 1 1) ++
    sepInceptionUnits 192 64 96 128 16 32 32 none ++
    sepInceptionUnits 256 128 128 192 32 96 64 none ++
    sepInceptionUnits 480 192 96 208 16 48 64 none ++
    sepInceptionUnits 512 160 112 224 24 64 64 none ++
    sepInceptionUnits 512 128 128 256 24 64 64 none ++
    sepInceptionUnits 512 112 144 288 32 64 64 none ++
    sepInceptionUnits 528 256 160 320 32 128 128 none ++
    sepInceptionUnits 832 256 160 320 32 128 128 none ++
    sepInceptionUnits 832 384 192 384 48 128 128 none

/-- Whether a stage is a max-pool stage. -/
def isPoolStage : Stage → Bool
  | Stage.maxPool _ _ _ => true
  | _ => false

/-- 1-based positions of the max-pool stages in a stage list. -/
def poolPositions (l : List Stage) : List Nat :=
  ((List.range l.length).filter fun i =>
      match l[i]? with
      | some st => isPoolStage st
      | none => false).map fun i => i + 1

/-- The (input channels, output channels) pairs of the inception stages of a
stage list, in pipeline order. -/
def inceptionTransitions (l : List Stage) : List (Nat × Nat) :=
  l.filterMap fun st =>
    match st with
    | Stage.inception cin b0 _ b1o _ b2o b3 => some (cin, b0 + b1o + b2o + b3)
    | _ => none

/-- Channel count after each prefix of a stage list, starting from a valid
input of Scenario A size; none would indicate either a channel mismatch
between consecutive stages or an extent failure. -/
def prefixChannels (l : List Stage) : List (Option Nat) :=
  (List.range (l.length + 1)).map fun k =>
    (runStages (l.take k) ⟨1, 3, 64, 224, 224⟩).map Shape5.c

/-- The Python error class relevant to this module. -/
inductive PyError where
  | typeError
deriving DecidableEq, Repr

/-- Binding of a plain positional call against a signature that accepts
between minPos and maxPos positional parameters: a count outside that range
makes Python raise TypeError at the call. -/
def pyPositionalCall (minPos maxPos given : Nat) : Except PyError Unit :=
  if minPos ≤ given ∧ given ≤ maxPos then Except.ok () else Except.error PyError.typeError

/-- SepInceptionBlock3D.__init__ (s3d.py line 58) has, besides self, two
required positional parameters (in_planes, branch_layers) and one optional
one (norm_layer). -/
def sepInceptionMinPos : Nat := 2

/-- Largest number of positional arguments SepInceptionBlock3D.__init__
accepts besides self. -/
def sepInceptionMaxPos : Nat := 3

/-- Each of the nine SepInceptionBlock3D construction calls inside
S3D.__init__ (s3d.py lines 126-136) passes 7 positional arguments: in_planes
followed by six channel counts. -/
def s3dInceptionCallArgCounts : List Nat := [7, 7, 7, 7, 7, 7, 7, 7, 7]

/-- Models S3D.__init__ (s3d.py lines 108-142): resolve the norm_layer
default (lines 115-116), build the stem modules (lines 119-125, which
succeed), then evaluate the nine SepInceptionBlock3D construction calls of
lines 126-136 in order, each bound against the signature of line 58; the
head construction on lines 138-142 is reached only if all of them succeed. -/
def constructS3D (norm_layer : Option NormSpec) (num_classes : Nat) (dropout : ℚ) :
    Except PyError Unit := do
  let _nl := norm_layer.getD defaultNorm
  let _nc := num_classes
  let _d := dropout
  s3dInceptionCallArgCounts.forM fun nargs =>
    pyPositionalCall sepInceptionMinPos sepInceptionMaxPos nargs

/-- functools.partial raises TypeError when called with no positional
argument: it requires at least the callable it is to wrap. -/
def functoolsPartialNew (nPositional : Nat) : Except PyError Unit :=
  if nPositional = 0 then Except.error PyError.typeError else Except.ok ()

/-- The transforms argument of S3D_Weights.KINETICS400_V1 (s3d.py
lines 155-160) calls functools.partial with zero positional arguments, only
the keyword arguments crop_size, resize_size, mean and std. -/
def s3dWeightsTransformsPositionalArgs : Nat := 0

/-- Models evaluation of the top level of s3d.py: the import statements and
the three class statements for TemporalSeparableConv, SepInceptionBlock3D
and S3D execute without running any method body; then the S3D_Weights class
statement evaluates its enum body (lines 152-175), which calls
functools.partial while building the KINETICS400_V1 member; the
register_model application on lines 178-179 would run last. -/
def evalS3dModuleTopLevel : Except PyError Unit := do
  functoolsPartialNew s3dWeightsTransformsPositionalArgs

/-! Helper evaluation lemmas for the shape semantics. -/

theorem someBind {α β : Type} (a : α) (f : α → Option β) : (some a).bind f = f a := rfl

theorem outDim_pos_eval (s : Nat) {n k p : Nat} (h : k ≤ n + 2 * p) :
    outDim n k s p = some ((n + 2 * p - k) / s + 1) := by
  unfold outDim
  rw [if_neg (by omega)]

theorem conv3dShape_eval (cin cout kt kh kw qt qh qw pt ph pw N C T H W : Nat)
    (hc : C = cin) (h1 : kt ≤ T + 2 * pt) (h2 : kh ≤ H + 2 * ph) (h3 : kw ≤ W + 2 * pw) :
    conv3dShape cin cout kt kh kw qt qh qw pt ph pw ⟨N, C, T, H, W⟩ =
      some ⟨N, cout, (T + 2 * pt - kt) / qt + 1, (H + 2 * ph - kh) / qh + 1,
        (W + 2 * pw - kw) / qw + 1⟩ := by
  unfold conv3dShape
  rw [if_pos (show Shape5.c ⟨N, C, T, H, W⟩ = cin from hc)]
  simp only [outDim_pos_eval qt h1, outDim_pos_eval qh h2, outDim_pos_eval qw h3]
  rfl

theorem poolShape_eval (kt kh kw qt qh qw pt ph pw N C T H W : Nat)
    (h1 : kt ≤ T + 2 * pt) (h2 : kh ≤ H + 2 * ph) (h3 : kw ≤ W + 2 * pw) :
    poolShape kt kh kw qt qh qw pt ph pw ⟨N, C, T, H, W⟩ =
      some ⟨N, C, (T + 2 * pt - kt) / qt + 1, (H + 2 * ph - kh) / qh + 1,
        (W + 2 * pw - kw) / qw + 1⟩ := by
  unfold poolShape
  simp only [outDim_pos_eval qt h1, outDim_pos_eval qh h2, outDim_pos_eval qw h3]
  rfl

theorem pointConvShape_eval (cin cout : Nat) (nl : NormSpec) (N C T H W : Nat)
    (hc : C = cin) (ht : 1 ≤ T) (hh : 1 ≤ H) (hw : 1 ≤ W) :
    convSpecShape (cnaPoint cin cout nl) ⟨N, C, T, H, W⟩ = some ⟨N, cout, T, H, W⟩ := by
  rw [show convSpecShape (cnaPoint cin cout nl) ⟨N, C, T, H, W⟩
        = conv3dShape cin cout 1 1 1 1 1 1 0 0 0 ⟨N, C, T, H, W⟩ from rfl,
      conv3dShape_eval cin cout 1 1 1 1 1 1 0 0 0 N C T H W hc (by omega) (by omega) (by omega)]
  simp only [Option.some.injEq, Shape5.mk.injEq, true_and, and_true]
  omega

theorem convSpatial_eval (cin cout k s p N C T H W : Nat) (hc : C = cin) (ht : 1 ≤ T)
    (hkh : k ≤ H + 2 * p) (hkw : k ≤ W + 2 * p) :
    conv3dShape cin cout 1 k k 1 s s 0 p p ⟨N, C, T, H, W⟩ =
      some ⟨N, cout, T, (H + 2 * p - k) / s + 1, (W + 2 * p - k) / s + 1⟩ := by
  rw [conv3dShape_eval cin cout 1 k k 1 s s 0 p p N C T H W hc (by omega) hkh hkw]
  simp only [Option.some.injEq, Shape5.mk.injEq, true_and, and_true]
  omega

theorem convTemporal_eval (cout k s p N T H W : Nat) (hk : k ≤ T + 2 * p)
    (hh : 1 ≤ H) (hw : 1 ≤ W) :
    conv3dShape cout cout k 1 1 s 1 1 p 0 0 ⟨N, cout, T, H, W⟩ =
      some ⟨N, cout, (T + 2 * p - k) / s + 1, H, W⟩ := by
  rw [conv3dShape_eval cout cout k 1 1 s 1 1 p 0 0 N cout T H W rfl hk (by omega) (by omega)]
  simp only [Option.some.injEq, Shape5.mk.injEq, true_and, and_true]
  omega

theorem tscShape_eval (cin cout k s p N C T H W : Nat) (hc : C = cin) (ht : 1 ≤ T)
    (hkt : k ≤ T + 2 * p) (hkh : k ≤ H + 2 * p) (hkw : k ≤ W + 2 * p) :
    tscShape cin cout k s p ⟨N, C, T, H, W⟩ =
      some ⟨N, cout, (T + 2 * p - k) / s + 1, (H + 2 * p - k) / s + 1,
        (W + 2 * p - k) / s + 1⟩ := by
  have e1 : convSpecShape ⟨cin, cout, (1, k, k), (1, s, s), (0, p, p), false, tscNorm⟩
      ⟨N, C, T, H, W⟩
      = some ⟨N, cout, T, (H + 2 * p - k) / s + 1, (W + 2 * p - k) / s + 1⟩ := by
    rw [show convSpecShape ⟨cin, cout, (1, k, k), (1, s, s), (0, p, p), false, tscNorm⟩
          ⟨N, C, T, H, W⟩
          = conv3dShape cin cout 1 k k 1 s s 0 p p ⟨N, C, T, H, W⟩ from rfl]
    exact convSpatial_eval cin cout k s p N C T H W hc ht hkh hkw
  have e2 : convSpecShape ⟨cout, cout, (k, 1, 1), (s, 1, 1), (p, 0, 0), false, tscNorm⟩
      ⟨N, cout, T, (H + 2 * p - k) / s + 1, (W + 2 * p - k) / s + 1⟩
      = some ⟨N, cout, (T + 2 * p - k) / s + 1, (H + 2 * p - k) / s + 1,
          (W + 2 * p - k) / s + 1⟩ := by
    rw [show convSpecShape ⟨cout, cout, (k, 1, 1), (s, 1, 1), (p, 0, 0), false, tscNorm⟩
          ⟨N, cout, T, (H + 2 * p - k) / s + 1, (W + 2 * p - k) / s + 1⟩
          = conv3dShape cout cout k 1 1 s 1 1 p 0 0
              ⟨N, cout, T, (H + 2 * p - k) / s + 1, (W + 2 * p - k) / s + 1⟩ from rfl]
    exact convTemporal_eval cout k s p N T ((H + 2 * p - k) / s + 1) ((W + 2 * p - k) / s + 1)
      hkt (Nat.succ_le_succ (Nat.zero_le _)) (Nat.succ_le_succ (Nat.zero_le _))
  unfold tscShape runConvs temporalSeparableConv
  simp only [List.foldl_cons, List.foldl_nil, someBind, e1, e2]

theorem tscShape_pres (cin cout N C T H W : Nat) (hc : C = cin)
    (ht : 1 ≤ T) (hh : 1 ≤ H) (hw : 1 ≤ W) :
    tscShape cin cout 3 1 1 ⟨N, C, T, H, W⟩ = some ⟨N, cout, T, H, W⟩ := by
  rw [tscShape_eval cin cout 3 1 1 N C T H W hc ht (by omega) (by omega) (by omega)]
  simp only [Option.some.injEq, Shape5.mk.injEq, true_and, and_true]
  omega

theorem sepInceptionShape_eval (ip b0 b1m b1o b2m b2o b3 N C T H W : Nat)
    (hc : C = ip) (ht : 1 ≤ T) (hh : 1 ≤ H) (hw : 1 ≤ W) :
    sepInceptionShape ip b0 b1m b1o b2m b2o b3 ⟨N, C, T, H, W⟩ =
      some ⟨N, b0 + b1o + b2o + b3, T, H, W⟩ := by
  have e0 := pointConvShape_eval ip b0 defaultNorm N C T H W hc ht hh hw
  have e1a := pointConvShape_eval ip b1m defaultNorm N C T H W hc ht hh hw
  have e1b := tscShape_pres b1m b1o N b1m T H W rfl ht hh hw
  have e2a := pointConvShape_eval ip b2m defaultNorm N C T H W hc ht hh hw
  have e2b := tscShape_pres b2m b2o N b2m T H W rfl ht hh hw
  have ep : poolShape 3 3 3 1 1 1 1 1 1 ⟨N, C, T, H, W⟩ = some ⟨N, C, T, H, W⟩ := by
    rw [poolShape_eval 3 3 3 1 1 1 1 1 1 N C T H W (by omega) (by omega) (by omega)]
    simp only [Option.some.injEq, Shape5.mk.injEq, true_and, and_true]
    omega
  have e3 := pointConvShape_eval ip b3 defaultNorm N C T H W hc ht hh hw
  unfold sepInceptionShape
  simp only [e0, e1a, e1b, e2a, e2b, ep, e3, someBind]
  unfold cat4Shape
  rw [if_pos]
  exact ⟨rfl, rfl, rfl, rfl, rfl, rfl, rfl, rfl, rfl, rfl, rfl, rfl⟩

theorem headShape_eval (numClasses N T H W : Nat) (ht : 2 ≤ T) (hh : 7 ≤ H) (hw : 7 ≤ W) :
    s3dHeadShape numClasses ⟨N, 1024, T, H, W⟩ = some (N, numClasses) := by
  have ea : avgPoolShape ⟨N, 1024, T, H, W⟩ = some ⟨N, 1024, T - 1, H - 6, W - 6⟩ := by
    rw [show avgPoolShape ⟨N, 1024, T, H, W⟩
          = poolShape 2 7 7 1 1 1 0 0 0 ⟨N, 1024, T, H, W⟩ from rfl,
        poolShape_eval 2 7 7 1 1 1 0 0 0 N 1024 T H W (by omega) (by omega) (by omega)]
    simp only [Option.some.injEq, Shape5.mk.injEq, true_and, and_true]
    omega
  have ec : conv3dShape 1024 numClasses 1 1 1 1 1 1 0 0 0 ⟨N, 1024, T - 1, H - 6, W - 6⟩
      = some ⟨N, numClasses, T - 1, H - 6, W - 6⟩ := by
    rw [conv3dShape_eval 1024 numClasses 1 1 1 1 1 1 0 0 0 N 1024 (T - 1) (H - 6) (W - 6)
          rfl (by omega) (by omega) (by omega)]
    simp only [Option.some.injEq, Shape5.mk.injEq, true_and, and_true]
    omega
  unfold s3dHeadShape classifierShape dropoutShape
  simp only [ea, ec, someBind]
  rfl

theorem s3dForwardShape_eval (N T H W nc : Nat)
    (hT : 64 ≤ T) (hH : 224 ≤ H) (hW : 224 ≤ W) :
    s3dForwardShape nc ⟨N, 3, T, H, W⟩ = some (N, nc) := by
  obtain ⟨t1, ht1d, ht1⟩ : ∃ v, (T + 2 * 3 - 7) / 2 + 1 = v ∧ 32 ≤ v := ⟨_, rfl, by omega⟩
  obtain ⟨h1, hh1d, hh1⟩ : ∃ v, (H + 2 * 3 - 7) / 2 + 1 = v ∧ 112 ≤ v := ⟨_, rfl, by omega⟩
  obtain ⟨w1, hw1d, hw1⟩ : ∃ v, (W + 2 * 3 - 7) / 2 + 1 = v ∧ 112 ≤ v := ⟨_, rfl, by omega⟩
  obtain ⟨h2, hh2d, hh2⟩ : ∃ v, (h1 + 2 * 1 - 3) / 2 + 1 = v ∧ 56 ≤ v := ⟨_, rfl, by omega⟩
  obtain ⟨w2, hw2d, hw2⟩ : ∃ v, (w1 + 2 * 1 - 3) / 2 + 1 = v ∧ 56 ≤ v := ⟨_, rfl, by omega⟩
  obtain ⟨h3, hh3d, hh3⟩ : ∃ v, (h2 + 2 * 1 - 3) / 2 + 1 = v ∧ 28 ≤ v := ⟨_, rfl, by omega⟩
  obtain ⟨w3, hw3d, hw3⟩ : ∃ v, (w2 + 2 * 1 - 3) / 2 + 1 = v ∧ 28 ≤ v := ⟨_, rfl, by omega⟩
  obtain ⟨t2, ht2d, ht2⟩ : ∃ v, (t1 + 2 * 1 - 3) / 2 + 1 = v ∧ 16 ≤ v := ⟨_, rfl, by omega⟩
  obtain ⟨h4, hh4d, hh4⟩ : ∃ v, (h3 + 2 * 1 - 3) / 2 + 1 = v ∧ 14 ≤ v := ⟨_, rfl, by omega⟩
  obtain ⟨w4, hw4d, hw4⟩ : ∃ v, (w3 + 2 * 1 - 3) / 2 + 1 = v ∧ 14 ≤ v := ⟨_, rfl, by omega⟩
  obtain ⟨t3, ht3d, ht3⟩ : ∃ v, (t2 + 2 * 0 - 2) / 2 + 1 = v ∧ 8 ≤ v := ⟨_, rfl, by omega⟩
  obtain ⟨h5, hh5d, hh5⟩ : ∃ v, (h4 + 2 * 0 - 2) / 2 + 1 = v ∧ 7 ≤ v := ⟨_, rfl, by omega⟩
  obtain ⟨w5, hw5d, hw5⟩ : ∃ v, (w4 + 2 * 0 - 2) / 2 + 1 = v ∧ 7 ≤ v := ⟨_, rfl, by omega⟩
  have e1 : stageShape (Stage.tsc 3 64 7 2 3) ⟨N, 3, T, H, W⟩ = some ⟨N, 64, t1, h1, w1⟩ := by
    rw [← ht1d, ← hh1d, ← hw1d]
    exact tscShape_eval 3 64 7 2 3 N 3 T H W rfl (by omega) (by omega) (by omega) (by omega)
  have e2 : stageShape (Stage.maxPool (1, 3, 3) (1, 2, 2) (0, 1, 1)) ⟨N, 64, t1, h1, w1⟩
      = some ⟨N, 64, t1, h2, w2⟩ := by
    rw [show stageShape (Stage.maxPool (1, 3, 3) (1, 2, 2) (0, 1, 1)) ⟨N, 64, t1, h1, w1⟩
          = poolShape 1 3 3 1 2 2 0 1 1 ⟨N, 64, t1, h1, w1⟩ from rfl,
        poolShape_eval 1 3 3 1 2 2 0 1 1 N 64 t1 h1 w1 (by omega) (by omega) (by omega)]
    simp only [Option.some.injEq, Shape5.mk.injEq, true_and, and_true]
    omega
  have e3 : stageShape (Stage.pointConv 64 64) ⟨N, 64, t1, h2, w2⟩
      = some ⟨N, 64, t1, h2, w2⟩ :=
    pointConvShape_eval 64 64 defaultNorm N 64 t1 h2 w2 rfl (by omega) (by omega) (by omega)
  have e4 : stageShape (Stage.tsc 64 192 3 1 1) ⟨N, 64, t1, h2, w2⟩
      = some ⟨N, 192, t1, h2, w2⟩ :=
    tscShape_pres 64 192 N 64 t1 h2 w2 rfl (by omega) (by omega) (by omega)
  have e5 : stageShape (Stage.maxPool (1, 3, 3) (1, 2, 2) (0, 1, 1)) ⟨N, 192, t1, h2, w2⟩
      = some ⟨N, 192, t1, h3, w3⟩ := by
    rw [show stageShape (Stage.maxPool (1, 3, 3) (1, 2, 2) (0, 1, 1)) ⟨N, 192, t1, h2, w2⟩
          = poolShape 1 3 3 1 2 2 0 1 1 ⟨N, 192, t1, h2, w2⟩ from rfl,
        poolShape_eval 1 3 3 1 2 2 0 1 1 N 192 t1 h2 w2 (by omega) (by omega) (by omega)]
    simp only [Option.some.injEq, Shape5.mk.injEq, true_and, and_true]
    omega
  have e6 : stageShape (Stage.inception 192 64 96 128 16 32 32) ⟨N, 192, t1, h3, w3⟩
      = some ⟨N, 256, t1, h3, w3⟩ :=
    sepInceptionShape_eval 192 64 96 128 16 32 32 N 192 t1 h3 w3 rfl
      (by omega) (by omega) (by omega)
  have e7 : stageShape (Stage.inception 256 128 128 192 32 96 64) ⟨N, 256, t1, h3, w3⟩
      = some ⟨N, 480, t1, h3, w3⟩ :=
    sepInceptionShape_eval 256 128 128 192 32 96 64 N 256 t1 h3 w3 rfl
      (by omega) (by omega) (by omega)
  have e8 : stageShape (Stage.maxPool (3, 3, 3) (2, 2, 2) (1, 1, 1)) ⟨N, 480, t1, h3, w3⟩
      = some ⟨N, 480, t2, h4, w4⟩ := by
    rw [show stageShape (Stage.maxPool (3, 3, 3) (2, 2, 2) (1, 1, 1)) ⟨N, 480, t1, h3, w3⟩
          = poolShape 3 3 3 2 2 2 1 1 1 ⟨N, 480, t1, h3, w3⟩ from rfl,
        poolShape_eval 3 3 3 2 2 2 1 1 1 N 480 t1 h3 w3 (by omega) (by omega) (by omega)]
    simp only [Option.some.injEq, Shape5.mk.injEq, true_and, and_true]
    omega
  have e9 : stageShape (Stage.inception 480 192 96 208 16 48 64) ⟨N, 480, t2, h4, w4⟩
      = some ⟨N, 512, t2, h4, w4⟩ :=
    sepInceptionShape_eval 480 192 96 208 16 48 64 N 480 t2 h4 w4 rfl
      (by omega) (by omega) (by omega)
  have e10 : stageShape (Stage.inception 512 160 112 224 24 64 64) ⟨N, 512, t2, h4, w4⟩
      = some ⟨N, 512, t2, h4, w4⟩ :=
    sepInceptionShape_eval 512 160 112 224 24 64 64 N 512 t2 h4 w4 rfl
      (by omega) (by omega) (by omega)
  have e11 : stageShape (Stage.inception 512 128 128 256 24 64 64) ⟨N, 512, t2, h4, w4⟩
      = some ⟨N, 512, t2, h4, w4⟩ :=
    sepInceptionShape_eval 512 128 128 256 24 64 64 N 512 t2 h4 w4 rfl
      (by omega) (by omega) (by omega)
  have e12 : stageShape (Stage.inception 512 112 144 288 32 64 64) ⟨N, 512, t2, h4, w4⟩
      = some ⟨N, 528, t2, h4, w4⟩ :=
    sepInceptionShape_eval 512 112 144 288 32 64 64 N 512 t2 h4 w4 rfl
      (by omega) (by omega) (by omega)
  have e13 : stageShape (Stage.inception 528 256 160 320 32 128 128) ⟨N, 528, t2, h4, w4⟩
      = some ⟨N, 832, t2, h4, w4⟩ :=
    sepInceptionShape_eval 528 256 160 320 32 128 128 N 528 t2 h4 w4 rfl
      (by omega) (by omega) (by omega)
  have e14 : stageShape (Stage.maxPool (2, 2, 2) (2, 2, 2) (0, 0, 0)) ⟨N, 832, t2, h4, w4⟩
      = some ⟨N, 832, t3, h5, w5⟩ := by
    rw [show stageShape (Stage.maxPool (2, 2, 2) (2, 2, 2) (0, 0, 0)) ⟨N, 832, t2, h4, w4⟩
          = poolShape 2 2 2 2 2 2 0 0 0 ⟨N, 832, t2, h4, w4⟩ from rfl,
        poolShape_eval 2 2 2 2 2 2 0 0 0 N 832 t2 h4 w4 (by omega) (by omega) (by omega)]
    simp only [Option.some.injEq, Shape5.mk.injEq, true_and, and_true]
    omega
  have e15 : stageShape (Stage.inception 832 256 160 320 32 128 128) ⟨N, 832, t3, h5, w5⟩
      = some ⟨N, 832, t3, h5, w5⟩ :=
    sepInceptionShape_eval 832 256 160 320 32 128 128 N 832 t3 h5 w5 rfl
      (by omega) (by omega) (by omega)
  have e16 : stageShape (Stage.inception 832 384 192 384 48 128 128) ⟨N, 832, t3, h5, w5⟩
      = some ⟨N, 1024, t3, h5, w5⟩ :=
    sepInceptionShape_eval 832 384 192 384 48 128 128 N 832 t3 h5 w5 rfl
      (by omega) (by omega) (by omega)
  have eF : featuresShape ⟨N, 3, T, H, W⟩ = some ⟨N, 1024, t3, h5, w5⟩ := by
    unfold featuresShape runStages s3dFeatures
    simp only [List.foldl_cons, List.foldl_nil, someBind, e1, e2, e3, e4, e5, e6, e7, e8,
      e9, e10, e11, e12, e13, e14, e15, e16]
  unfold s3dForwardShape
  rw [eF, show (some (⟨N, 1024, t3, h5, w5⟩ : Shape5)).bind (s3dHeadShape nc)
        = s3dHeadShape nc ⟨N, 1024, t3, h5, w5⟩ from rfl]
  exact headShape_eval nc N t3 h5 w5 (by omega) (by omega) (by omega)


/-! Claim theorems. -/

/-- C1: for every valid input tensor of shape (N,3,T,H,W) with H,W at least
224 and T at least 64, a forward pass through the full S3D network built for
numClasses classes returns a tensor of shape (N, numClasses). -/
theorem s3d_forward_output_shape (N T H W numClasses : Nat)
    (hT : 64 ≤ T) (hH : 224 ≤ H) (hW : 224 ≤ W) :
    s3dForwardShape numClasses ⟨N, 3, T, H, W⟩ = some (N, numClasses) :=
  s3dForwardShape_eval N T H W numClasses hT hH hW

/-- C1 witness: Scenario A, input (2,3,64,224,224) with num_classes = 400
yields output of shape (2, 400). -/
theorem s3d_forward_output_shape_witness :
    s3dForwardShape 400 ⟨2, 3, 64, 224, 224⟩ = some (2, 400) :=
  s3d_forward_output_shape 2 64 224 224 400 (by omega) (by omega) (by omega)

/-- C2: for every choice of constructor arguments, constructing S3D raises
TypeError, because the feature pipeline invokes SepInceptionBlock3D with
seven positional arguments while its signature accepts only in_planes, a
branch_layers list and an optional norm_layer; no S3D instance can be
created. -/
theorem s3d_construction_raises_type_error
    (norm_layer : Option NormSpec) (num_classes : Nat) (dropout : ℚ) :
    constructS3D norm_layer num_classes dropout = Except.error PyError.typeError := rfl

/-- C3: evaluating the top level of the module raises TypeError while the
S3D_Weights enum body is built, because its transforms field calls
functools.partial with only keyword arguments and no callable as first
argument. -/
theorem s3d_module_top_level_raises_type_error :
    evalS3dModuleTopLevel = Except.error PyError.typeError := rfl

/-- C4: for every Inception Block configuration (ip, b0, (b1m,b1o),
(b2m,b2o), b3) and every input of shape (N, ip, T, H, W) with positive
extents, the output has channel count b0 + b1o + b2o + b3 (the four branch
outputs concatenated along the channel axis in order 0,1,2,3) and the same
T, H, W extents as the input. -/
theorem inception_block_output_shape (ip b0 b1m b1o b2m b2o b3 N T H W : Nat)
    (ht : 1 ≤ T) (hh : 1 ≤ H) (hw : 1 ≤ W) :
    sepInceptionShape ip b0 b1m b1o b2m b2o b3 ⟨N, ip, T, H, W⟩ =
      some ⟨N, b0 + b1o + b2o + b3, T, H, W⟩ :=
  sepInceptionShape_eval ip b0 b1m b1o b2m b2o b3 N ip T H W rfl ht hh hw

/-- C4 witness: Scenario C, the (Cin=192, 64, 96/128, 16/32, 32) block maps
(1,192,8,28,28) to (1,256,8,28,28). -/
theorem inception_block_output_shape_witness :
    sepInceptionShape 192 64 96 128 16 32 32 ⟨1, 192, 8, 28, 28⟩ =
      some ⟨1, 256, 8, 28, 28⟩ :=
  inception_block_output_shape 192 64 96 128 16 32 32 1 8 28 28
    (by omega) (by omega) (by omega)

/-- C5 counterexample: the claim places max-pool stages exactly after
positions 2, 7 and 13 of the ordered 16-stage list, that is at positions
3, 8 and 14; but in the code the max-pool stages sit at 1-based positions
2, 5, 8 and 14 (immediately after positions 1, 4, 7 and 13): there are four
of them, position 3 holds the stem point convolution, and position 2 itself
is already a pool. -/
theorem features_pool_positions_counterexample :
    poolPositions s3dFeatures = [2, 5, 8, 14] ∧ poolPositions s3dFeatures ≠ [3, 8, 14] :=
  ⟨by decide, by decide⟩

/-- C5 (amended): the Feature Extractor is the fixed ordered 16-stage
pipeline whose first five stages are the stem (separable 3 to 64 k7 s2 p3,
spatial-only max-pool, point convolution 64 to 64, separable 64 to 192 k3 s1
p1, spatial-only max-pool), whose nine Inception Blocks realize the channel
transitions 192-256, 256-480, 480-512, 512-512, 512-512, 512-528, 528-832,
832-832, 832-1024 with each block's input channel count equal to the
previous stage's output channel count, and whose max-pool stages sit at
1-based positions 2, 5, 8 and 14, i.e. immediately after stages 1, 4, 7 and
13 (the last two pools following the second and the seventh Inception
Block). -/
theorem features_pipeline_structure :
    s3dFeatures.length = 16 ∧
    s3dFeatures.take 5 =
      [Stage.tsc 3 64 7 2 3,
       Stage.maxPool (1, 3, 3) (1, 2, 2) (0, 1, 1),
       Stage.pointConv 64 64,
       Stage.tsc 64 192 3 1 1,
       Stage.maxPool (1, 3, 3) (1, 2, 2) (0, 1, 1)] ∧
    inceptionTransitions s3dFeatures =
      [(192, 256), (256, 480), (480, 512), (512, 512), (512, 512), (512, 528),
       (528, 832), (832, 832), (832, 1024)] ∧
    prefixChannels s3dFeatures =
      [some 3, some 64, some 64, some 64, some 192, some 192, some 256, some 480,
       some 480, some 512, some 512, some 512, some 528, some 832, some 832,
       some 832, some 1024] ∧
    poolPositions s3dFeatures = [2, 5, 8, 14] :=
  ⟨rfl, by decide, by decide, by decide, by decide⟩

/-- C6 counterexample: with a custom norm_layer supplied to the S3D
constructor, not every Conv3dNormActivation unit outside the separable
convolutions carries the override: the inception blocks are constructed
without forwarding norm_layer, so their units keep the default factory. -/
theorem norm_layer_not_uniformly_substituted :
    ¬ (∀ u ∈ s3dFeatureUnits (some (NormSpec.custom 0)),
        u.insideSeparable = false → u.unit.norm = NormSpec.custom 0) := by decide

/-- C6 (amended): the norm_layer construction option (defaulting to batch
normalization with epsilon 1e-3 and momentum 1e-3) is substituted only into
the stem's point-convolution unit; the Separable Units' two internal
normalizations are hard-coded to their own fixed parameters, and the nine
SepInceptionBlock3D construction calls pass no norm_layer argument, so every
unit inside the inception blocks falls back to the default factory
regardless of the override. -/
theorem norm_layer_override_placement (c : NormSpec) :
    (s3dFeatureUnits (some c)).map (fun u => (u.insideSeparable, u.unit.norm)) =
      [(true, tscNorm), (true, tscNorm), (false, c), (true, tscNorm), (true, tscNorm)] ++
        (List.replicate 9
          [(false, defaultNorm), (false, defaultNorm), (true, tscNorm), (true, tscNorm),
           (false, defaultNorm), (true, tscNorm), (true, tscNorm),
           (false, defaultNorm)]).flatten := rfl

/-- C7: for every (Cin, Cout, k, s, p), the Separable Spatiotemporal
Convolution Unit consists of exactly two convolution-normalization-activation
passes: first Cin to Cout with kernel (1,k,k), stride (1,s,s), padding
(0,p,p), no bias and batch normalization with epsilon 1e-3 and momentum
1e-3; then Cout to Cout with kernel (k,1,1), stride (s,1,1), padding
(p,0,0), no bias and its own such normalization, so the first pass performs
the full channel expansion; and its shape semantics is the sequential
composition of exactly those two convolutions. -/
theorem temporal_separable_conv_structure (cin cout k s p : Nat) :
    temporalSeparableConv cin cout k s p =
      [⟨cin, cout, (1, k, k), (1, s, s), (0, p, p), false,
        NormSpec.batchNorm (1/1000) (1/1000)⟩,
       ⟨cout, cout, (k, 1, 1), (s, 1, 1), (p, 0, 0), false,
        NormSpec.batchNorm (1/1000) (1/1000)⟩] ∧
    (∀ x : Shape5, tscShape cin cout k s p x =
      (conv3dShape cin cout 1 k k 1 s s 0 p p x).bind
        (conv3dShape cout cout k 1 1 s 1 1 p 0 0)) := by
  refine ⟨rfl, fun x => ?_⟩
  unfold tscShape runConvs temporalSeparableConv
  simp only [List.foldl_cons, List.foldl_nil, someBind]
  rfl

/-- C8: the Separable Unit's output extent follows the standard convolution
output-size formula per sub-convolution: with stride 1 and padding (k-1)/2
all extents are preserved; with stride 2 the strided extents are halved for
even inputs; in particular Scenario B, the (in=3, out=64, kernel=7,
stride=2, padding=3) unit maps (1,3,64,224,224) to (1,64,32,112,112). -/
theorem separable_conv_shape_law :
    (∀ (cin cout k p N C T H W : Nat), C = cin → k = 2 * p + 1 →
        1 ≤ T → 1 ≤ H → 1 ≤ W →
        tscShape cin cout k 1 p ⟨N, C, T, H, W⟩ = some ⟨N, cout, T, H, W⟩) ∧
    (∀ (cin cout k p N C A B D : Nat), C = cin → k = 2 * p + 1 →
        1 ≤ A → 1 ≤ B → 1 ≤ D →
        tscShape cin cout k 2 p ⟨N, C, 2 * A, 2 * B, 2 * D⟩ = some ⟨N, cout, A, B, D⟩) ∧
    tscShape 3 64 7 2 3 ⟨1, 3, 64, 224, 224⟩ = some ⟨1, 64, 32, 112, 112⟩ := by
  refine ⟨?_, ?_, by decide⟩
  · intro cin cout k p N C T H W hc hk ht hh hw
    rw [tscShape_eval cin cout k 1 p N C T H W hc ht (by omega) (by omega) (by omega)]
    simp only [Option.some.injEq, Shape5.mk.injEq, true_and, and_true]
    omega
  · intro cin cout k p N C A B D hc hk ha hb hd
    rw [tscShape_eval cin cout k 2 p N C (2 * A) (2 * B) (2 * D) hc (by omega)
          (by omega) (by omega) (by omega)]
    simp only [Option.some.injEq, Shape5.mk.injEq, true_and, and_true]
    omega

/-- C8 witness: the stride-1 law applied to the stem's second separable unit
(64 to 192, kernel 3, padding 1) on a (1,64,32,56,56) input preserves all
extents. -/
theorem separable_conv_shape_law_witness :
    tscShape 64 192 3 1 1 ⟨1, 64, 32, 56, 56⟩ = some ⟨1, 192, 32, 56, 56⟩ :=
  separable_conv_shape_law.1 64 192 3 1 1 64 32 56 56 rfl rfl
    (by omega) (by omega) (by omega)

/-- C9: the Classification Head applies, in order, average pooling with
kernel (2,7,7) and stride 1 with no padding, dropout with the configured
probability (default 0.2), a point convolution 1024 to num_classes with
kernel 1 and bias, and a mean over the remaining time, height and width
axes, producing one scalar score per class per batch element. -/
theorem classification_head_structure_and_shape :
    (∀ (numClasses : Nat) (d : ℚ), s3dHead numClasses d =
      [HeadOp.avgPool (2, 7, 7) (1, 1, 1) (0, 0, 0), HeadOp.dropout d,
       HeadOp.conv 1024 numClasses 1 true, HeadOp.meanTHW]) ∧
    s3dDefaultDropout = 1/5 ∧
    (∀ (numClasses N T H W : Nat), 2 ≤ T → 7 ≤ H → 7 ≤ W →
      s3dHeadShape numClasses ⟨N, 1024, T, H, W⟩ = some (N, numClasses)) :=
  ⟨fun _ _ => rfl, rfl, fun nc N T H W ht hh hw => headShape_eval nc N T H W ht hh hw⟩

/-- C9 witness: the head maps the (2,1024,8,7,7) feature tensor left by the
Feature Extractor in Scenario A to (2, 400) scores. -/
theorem classification_head_witness :
    s3dHeadShape 400 ⟨2, 1024, 8, 7, 7⟩ = some (2, 400) :=
  classification_head_structure_and_shape.2.2 400 2 8 7 7
    (by omega) (by omega) (by omega)

end S3DModel
